import Mathlib

/-!
Verification of the KHQR payment reconciliation subsystem of the Bot-TG
repository (`src/controllers/khqrPayment.js`, with the ledger schema from the
`transactions` table and the `users.balance` column).

The JavaScript source is shallowly embedded: the controller's mutable fields
(`paymentCheckers`, `activeIntervals`, `processedMd5`) together with the
durable SQLite state (`transactions` rows, `users.balance`) and the Telegram
side effects (messages sent, photos sent, messages deleted) form an explicit
`EngineState`.  Asynchronous callbacks (the 1-second `setInterval` poll tick,
the 10-minute `setTimeout`, the 1-minute cleanup interval) become explicit
events applied to that state; external outcomes (HTTP results of the gateway,
storage or messaging errors) are supplied as oracle inputs, mirroring the
`try`/`catch` structure of the source.
-/

namespace KHQR

/-- JavaScript number values relevant to the amount validation in
`generateQR` (`khqrPayment.js:184-202`): `NaN`, the two infinities, and
finite values (modelled as rationals). -/
inductive JSNum
  | nan
  | posInf
  | negInf
  | fin (q : ℚ)
deriving DecidableEq, Repr

/-- JS truthiness of a number: `!amount` is true for `NaN` and `0`. -/
def JSNum.falsy : JSNum → Bool
  | .nan => true
  | .fin q => q = 0
  | _ => false

/-- `isNaN(amount)` for a number argument. -/
def JSNum.isNaN : JSNum → Bool
  | .nan => true
  | _ => false

/-- `amount <= c` for a finite constant `c` (NaN compares false). -/
def JSNum.leQ : JSNum → ℚ → Bool
  | .nan, _ => false
  | .posInf, _ => false
  | .negInf, _ => true
  | .fin q, c => q ≤ c

/-- `amount < c` for a finite constant `c` (NaN compares false). -/
def JSNum.ltQ : JSNum → ℚ → Bool
  | .nan, _ => false
  | .posInf, _ => false
  | .negInf, _ => true
  | .fin q, c => q < c

/-- `amount > c` for a finite constant `c` (NaN compares false). -/
def JSNum.gtQ : JSNum → ℚ → Bool
  | .nan, _ => false
  | .posInf, _ => true
  | .negInf, _ => false
  | .fin q, c => c < q

/-- `parseFloat(amount)` for an amount that passed validation (validation
guarantees the argument is a finite number, see `valid_amount_fin`). -/
def JSNum.toRat : JSNum → ℚ
  | .fin q => q
  | _ => 0

/-- Configuration read by `loadSettings` from the settings manager:
`minTopupAmount` and `maxTopupAmount` (`khqrPayment.js:69-70`). -/
structure Settings where
  minTopupAmount : ℚ
  maxTopupAmount : ℚ
deriving DecidableEq, Repr

/-- JS truthiness of an optional string field (`undefined`, `null` and the
empty string are falsy). -/
def truthyS : Option String → Bool
  | none => false
  | some s => s ≠ ""

/-- axios resolves a response only when its status is 2xx (default
`validateStatus`); any other status makes the call throw. -/
def is2xx (s : Nat) : Bool := 200 ≤ s && s < 300

/-- Outcome of an HTTP call made through axios: either the promise rejects
(network failure, timeout, or a non-resolved status) before a response body is
seen by the caller, or a response is delivered. -/
inductive HttpOutcome (α : Type)
  | netErr
  | resp (r : α)
deriving DecidableEq, Repr

/-- Body-and-status of the gateway `create` response
(`GET {baseUrl}/create?...`): `response.data` may be absent, and its `qr`,
`qrdata`, `md5`, `transactionid` fields are each optional. -/
structure CreateResponseData where
  qr : Option String
  qrdata : Option String
  md5 : Option String
  transactionid : Option String
deriving DecidableEq, Repr

/-- A delivered gateway `create` response: HTTP status plus optional data. -/
structure CreateResponse where
  status : Nat
  data : Option CreateResponseData
deriving DecidableEq, Repr

/-- The successful payload returned by `generateQRCode`
(`khqrPayment.js:117-124`). -/
structure QRSuccess where
  qrUrl : Option String
  qrBase64 : Option String
  qrRaw : Option String
  md5Hash : String
  transactionId : String
deriving DecidableEq, Repr

/-- Result of `generateQRCode`: `{success:true, ...}` or
`{success:false, error}`. -/
inductive QRResult
  | success (r : QRSuccess)
  | failure (error : String)
deriving DecidableEq, Repr

/-- Oracle inputs consumed by one `generateQRCode` call: the HTTP outcome,
the result of `QRCode.toDataURL` on the raw payload (`none` = threw), the
result of `urlToBase64` on the image URL (`none` = returned null), and the
locally generated `generateRandomString(12)` id. -/
structure QRCodeEnv where
  http : HttpOutcome CreateResponse
  toDataURL : Option String
  urlToB64 : Option String
  randomId : String
deriving DecidableEq, Repr

/-- `generateQRCode(amount, userId)` (`khqrPayment.js:82-139`).  The call
fails on a thrown axios error (network failure or non-2xx status), or when
`response.data && (response.data.qr || response.data.qrdata) &&
response.data.md5` is falsy; otherwise it succeeds, rendering a QR locally
from the raw payload when no image URL was returned. -/
def generateQRCode (env : QRCodeEnv) : QRResult :=
  match env.http with
  | .netErr => .failure "Failed to generate payment QR code"
  | .resp r =>
    if ¬ is2xx r.status then .failure "Failed to generate payment QR code"
    else
      match r.data with
      | none => .failure "Invalid response from payment service"
      | some d =>
        if (truthyS d.qr || truthyS d.qrdata) && truthyS d.md5 then
          let rawPayload : Option String :=
            if truthyS d.qrdata then d.qrdata else none
          let qrImageUrl : Option String :=
            if truthyS d.qr then d.qr
            else match env.toDataURL with
              | some u => some u
              | none => d.qr
          let qrB64 : Option String :=
            if truthyS d.qr then env.urlToB64
            else if rawPayload.isSome then env.toDataURL
            else none
          .success
            { qrUrl := qrImageUrl
              qrBase64 := qrB64
              qrRaw := rawPayload
              md5Hash := d.md5.getD ""
              transactionId :=
                if truthyS d.transactionid then d.transactionid.getD ""
                else env.randomId }
        else .failure "Invalid response from payment service"

/-- A delivered `check_by_md5` response: status plus the parsed
`responseCode` field of the payload (absent when the body lacks it). -/
structure CheckResponse where
  status : Nat
  responseCode : Option Int
deriving DecidableEq, Repr

/-- Result of `checkPaymentStatus` as consumed by the poll loop. -/
structure StatusResult where
  success : Bool
  paid : Bool
deriving DecidableEq, Repr

/-- `checkPaymentStatus(md5Hash)` (`khqrPayment.js:142-175`): a thrown axios
error (network failure or non-2xx status) is caught and reported as
`{success:false}`; a resolved response with status 200 or 201 reports
`paid` exactly when `payload.responseCode === 0`; a resolved response with
any other status falls into the `else` branch and is reported as
`{success:false}`. -/
def checkPaymentStatus : HttpOutcome CheckResponse → StatusResult
  | .netErr => { success := false, paid := false }
  | .resp r =>
    if ¬ is2xx r.status then { success := false, paid := false }
    else if r.status = 200 ∨ r.status = 201 then
      { success := true, paid := r.responseCode = some 0 }
    else { success := false, paid := false }

/-- One row of the durable `transactions` table (schema in the database
setup: `user_id, type, amount, status, md5_hash, message_id, qr_url,
transaction_id, timestamp, completed_date`). -/
structure TxRow where
  user_id : Nat
  type : String
  amount : ℚ
  status : String
  md5_hash : Option String
  message_id : Option Nat
  qr_url : Option String
  transaction_id : String
  timestamp : Nat
  completed_date : Option Nat
deriving DecidableEq, Repr

/-- The value stored in `this.paymentCheckers` for a chat id
(`khqrPayment.js:245-252`). -/
structure Checker where
  md5 : String
  tran_id : String
  message_id : Nat
  timestamp : Nat
  amount : ℚ
  completed : Bool
deriving DecidableEq, Repr

/-- One interval created by `setInterval` in `autoCheckTransaction`: the
closure captures `userId`, `md5`, `amount` and a mutable `checkCount`;
`cleared` records whether `clearInterval` has been called on it. -/
structure Interval where
  userId : Nat
  md5 : String
  amount : ℚ
  checkCount : Nat
  cleared : Bool
deriving DecidableEq, Repr

/-- One timeout created by `setTimeout` in `deleteQRAfterTimeout`: the
closure captures only `userId`; the handle is never stored, so the timeout is
never cancelled; `fired` records whether it has run. -/
structure Timer where
  userId : Nat
  fireAt : Nat
  fired : Bool
deriving DecidableEq, Repr

/-- A message delivered through `bot.sendMessage` (chat id and text). -/
structure Msg where
  chatId : Nat
  text : String
deriving DecidableEq, Repr

/-- The whole observable state of the payment controller: the three
in-memory structures of `KHQRPaymentController`, the durable SQLite state
(`transactions` rows and `users.balance`), and the log of Telegram side
effects. -/
structure EngineState where
  paymentCheckers : List (Nat × Checker)
  activeIntervals : List (Nat × Nat)
  processedMd5 : List String
  intervals : List Interval
  timers : List Timer
  transactions : List TxRow
  balances : Nat → ℚ
  sentMessages : List Msg
  sentPhotos : List (Nat × Nat)
  deletedMessages : List (Nat × Nat)
  gatewayCreateCalls : Nat

/-- The controller state right after construction: empty maps, empty guard
set, no scheduled tasks, and an untouched durable store with every balance
zero. -/
def EngineState.init : EngineState :=
  { paymentCheckers := []
    activeIntervals := []
    processedMd5 := []
    intervals := []
    timers := []
    transactions := []
    balances := fun _ => 0
    sentMessages := []
    sentPhotos := []
    deletedMessages := []
    gatewayCreateCalls := 0 }

/-- `Map.prototype.get` on an association list keyed by chat id. -/
def mapGet {α : Type} (m : List (Nat × α)) (k : Nat) : Option α :=
  (m.find? (fun p => p.1 = k)).map Prod.snd

/-- `Map.prototype.set` on an association list keyed by chat id. -/
def mapSet {α : Type} (m : List (Nat × α)) (k : Nat) (v : α) : List (Nat × α) :=
  (k, v) :: m.filter (fun p => p.1 ≠ k)

/-- `Map.prototype.delete` on an association list keyed by chat id. -/
def mapDel {α : Type} (m : List (Nat × α)) (k : Nat) : List (Nat × α) :=
  m.filter (fun p => p.1 ≠ k)

/-- Update the interval record at a given index (used for `clearInterval`
and for the `checkCount++` of the closure). -/
def updateItv (l : List Interval) (idx : Nat) (f : Interval → Interval) :
    List Interval :=
  match l, idx with
  | [], _ => []
  | it :: rest, 0 => f it :: rest
  | it :: rest, n + 1 => it :: updateItv rest n f

/-- Mark the timer at a given index as having run. -/
def fireTimerAt (l : List Timer) (idx : Nat) : List Timer :=
  match l, idx with
  | [], _ => []
  | t :: rest, 0 => { t with fired := true } :: rest
  | t :: rest, n + 1 => t :: fireTimerAt rest n

/-- The SQL effect of
`UPDATE users SET balance = balance + ? WHERE telegram_id = ?`
(`khqrPayment.js:346`). -/
def creditBalance (balances : Nat → ℚ) (userId : Nat) (amount : ℚ) :
    Nat → ℚ :=
  fun u => if u = userId then balances u + amount else balances u

/-- The SQL effect of
`UPDATE transactions SET status = "completed", completed_date =
CURRENT_TIMESTAMP WHERE md5_hash = ? AND user_id = ?`
(`khqrPayment.js:354`): every row matching the hash and user — with no guard
on its current status — is set to completed; the returned count is
`result.changes`. -/
def sqlMarkCompleted (tbl : List TxRow) (md5 : String) (userId : Nat)
    (now : Nat) : List TxRow × Nat :=
  (tbl.map (fun row =>
      if row.md5_hash = some md5 ∧ row.user_id = userId then
        { row with status := "completed", completed_date := some now }
      else row),
   (tbl.filter (fun row =>
      row.md5_hash = some md5 ∧ row.user_id = userId)).length)

/-- The SQL effect of the fallback
`INSERT INTO transactions (...) VALUES (?, ?, ?, "completed", ?, ?,
CURRENT_TIMESTAMP, CURRENT_TIMESTAMP)` (`khqrPayment.js:357-360`). -/
def sqlInsertCompleted (tbl : List TxRow) (md5 : String) (userId : Nat)
    (amount : ℚ) (now : Nat) : List TxRow :=
  tbl ++ [{ user_id := userId
            type := "topup"
            amount := amount
            status := "completed"
            md5_hash := some md5
            message_id := none
            qr_url := none
            transaction_id := "topup_" ++ toString now ++ "_" ++ toString userId
            timestamp := now
            completed_date := some now }]

/-- The ledger's mark-completed operation as executed by the settle path
(`khqrPayment.js:352-361`): run the unguarded UPDATE, and when it matched no
row insert a completed row directly. -/
def markCompletedRun (tbl : List TxRow) (md5 : String) (userId : Nat)
    (amount : ℚ) (now : Nat) : List TxRow :=
  let r := sqlMarkCompleted tbl md5 userId now
  if r.2 = 0 then sqlInsertCompleted r.1 md5 userId amount now else r.1

/-- The SQL effect of
`UPDATE transactions SET status = "expired" WHERE md5_hash = ? AND
user_id = ? AND status = "pending"` (`khqrPayment.js:389`): only rows still
pending are touched. -/
def markExpiredRun (tbl : List TxRow) (md5 : String) (userId : Nat) :
    List TxRow :=
  tbl.map (fun row =>
    if row.md5_hash = some md5 ∧ row.user_id = userId ∧
        row.status = "pending" then
      { row with status := "expired" }
    else row)

/-- The confirmation text sent on settlement (`khqrPayment.js:327-330`). -/
def confirmText (amount : ℚ) : String :=
  "Automated Deposit System - Balance Added: $" ++ toString amount

/-- The thank-you text sent on settlement (`khqrPayment.js:337`). -/
def thankYouText (amount : ℚ) : String :=
  "Thank you for your payment of $" ++ toString amount ++
    ". We appreciate your support!"

/-- The expiry text sent by the timeout path (`khqrPayment.js:419`). -/
def expiredText : String :=
  "QR code expired after 10 minutes. Please generate a new one if needed."

/-- Fault oracle for one pass through the settle path: whether each
`await`ed side effect throws.  The two `bot.sendMessage` calls are not
individually guarded (a throw escapes to the tick's outer `catch`); the
balance UPDATE, the transaction UPDATE/INSERT pair and the
`bot.deleteMessage` each sit in their own `try`/`catch`. -/
structure SettleEnv where
  sendConfirmFails : Bool
  sendThanksFails : Bool
  balanceUpdateFails : Bool
  txUpdateFails : Bool
  deleteMsgFails : Bool
  now : Nat
deriving DecidableEq, Repr

/-- A `SettleEnv` in which every external call succeeds. -/
def SettleEnv.ok (now : Nat) : SettleEnv :=
  { sendConfirmFails := false
    sendThanksFails := false
    balanceUpdateFails := false
    txUpdateFails := false
    deleteMsgFails := false
    now := now }

/-- The settlement action: the body of the paid branch of the poll tick
after the interval has been cleared (`khqrPayment.js:320-378`).  It
check-and-sets the `processedMd5` guard, sends the two confirmation
messages, credits the balance and marks the ledger row completed (each in
its own `try`/`catch`), deletes the QR message and discards the
`paymentCheckers` entry.  The returned Boolean reports whether an unguarded
`await` threw (escaping to the tick's outer `catch`). -/
def settle (s : EngineState) (userId : Nat) (md5 : String) (amount : ℚ)
    (e : SettleEnv) : EngineState × Bool :=
  if md5 ∈ s.processedMd5 then (s, false)
  else
    let s := { s with processedMd5 := md5 :: s.processedMd5 }
    if e.sendConfirmFails then (s, true)
    else
      let s := { s with
        sentMessages := s.sentMessages ++ [⟨userId, confirmText amount⟩] }
      if e.sendThanksFails then (s, true)
      else
        let s := { s with
          sentMessages := s.sentMessages ++ [⟨userId, thankYouText amount⟩] }
        let s := if e.balanceUpdateFails then s
          else { s with balances := creditBalance s.balances userId amount }
        let s := if e.txUpdateFails then s
          else { s with transactions :=
            markCompletedRun s.transactions md5 userId amount e.now }
        match mapGet s.paymentCheckers userId with
        | some tr =>
          let s := if e.deleteMsgFails then s
            else { s with
              deletedMessages := s.deletedMessages ++ [(userId, tr.message_id)] }
          ({ s with paymentCheckers := mapDel s.paymentCheckers userId }, false)
        | none => (s, false)

/-- `maxChecks` of `autoCheckTransaction` (`khqrPayment.js:291`). -/
def maxChecks : Nat := 600

/-- Oracle inputs for one poll tick: the HTTP outcome of the status check,
the settle-path faults, and whether the expiry UPDATE throws. -/
structure TickEnv where
  check : HttpOutcome CheckResponse
  settleEnv : SettleEnv
  expireUpdateFails : Bool
deriving DecidableEq, Repr

/-- Clear the running interval and drop its `activeIntervals` entry
(`clearInterval(checkInterval); this.activeIntervals.delete(userId)`). -/
def clearTick (s : EngineState) (idx : Nat) (userId : Nat) : EngineState :=
  { s with intervals := updateItv s.intervals idx (fun it => { it with cleared := true })
           activeIntervals := mapDel s.activeIntervals userId }

/-- One firing of the `setInterval` callback of `autoCheckTransaction`
(`khqrPayment.js:296-402`) for the interval at index `idx`.  A cleared
interval never fires again.  The callback: stops when the `paymentCheckers`
entry is gone or the hash is already processed; otherwise queries
`checkPaymentStatus`; on `success && paid` clears the interval and runs the
settle path (a throw from the unguarded sends lands in the outer `catch`,
which increments `checkCount`); otherwise increments `checkCount` and, on
reaching `maxChecks`, stops and marks the pending row expired inside its own
`try`/`catch`. -/
def tick (s : EngineState) (idx : Nat) (e : TickEnv) : EngineState :=
  match s.intervals.get? idx with
  | none => s
  | some itv =>
    if itv.cleared then s
    else
      let userId := itv.userId
      let md5 := itv.md5
      let amount := itv.amount
      if (mapGet s.paymentCheckers userId).isNone then
        clearTick s idx userId
      else if md5 ∈ s.processedMd5 then
        clearTick s idx userId
      else
        let st := checkPaymentStatus e.check
        if st.success && st.paid then
          let s := clearTick s idx userId
          let r := settle s userId md5 amount e.settleEnv
          if r.2 then
            -- outer catch: checkCount++; the bound check re-clears an
            -- already cleared interval
            let c := itv.checkCount + 1
            let s := { r.1 with
              intervals := updateItv r.1.intervals idx
                (fun it => { it with checkCount := c }) }
            if maxChecks ≤ c then clearTick s idx userId else s
          else r.1
        else
          let c := itv.checkCount + 1
          let s := { s with
            intervals := updateItv s.intervals idx
              (fun it => { it with checkCount := c }) }
          if maxChecks ≤ c then
            let s := clearTick s idx userId
            if e.expireUpdateFails then s
            else { s with transactions := markExpiredRun s.transactions md5 userId }
          else s

/-- One firing of the `setTimeout` callback of `deleteQRAfterTimeout`
(`khqrPayment.js:409-425`) for the timer at index `idx`.  It acts on
whatever `paymentCheckers` entry the user currently has: tries to delete
that entry's QR message (errors caught and logged), removes the entry, and
sends the expiry notice.  With no entry it does nothing. -/
def timerFire (s : EngineState) (idx : Nat) (deleteMsgFails : Bool) :
    EngineState :=
  match s.timers.get? idx with
  | none => s
  | some t =>
    if t.fired then s
    else
      let s := { s with timers := fireTimerAt s.timers idx }
      match mapGet s.paymentCheckers t.userId with
      | none => s
      | some tr =>
        let s := if deleteMsgFails then s
          else { s with
            deletedMessages := s.deletedMessages ++ [(t.userId, tr.message_id)] }
        let s := { s with paymentCheckers := mapDel s.paymentCheckers t.userId }
        { s with sentMessages := s.sentMessages ++ [⟨t.userId, expiredText⟩] }

/-- One run of `cleanupExpiredTransactions` (`khqrPayment.js:467-477`):
drops every `paymentCheckers` entry older than 10 minutes.  It touches
neither the durable store nor the Telegram side; it does not clear the
entry's interval or timer. -/
def cleanupExpiredTransactions (s : EngineState) (now : Nat) : EngineState :=
  { s with paymentCheckers :=
      s.paymentCheckers.filter (fun p => ¬ (600000 < now - p.2.timestamp)) }

/-- `clearUserPaymentChecker(userId)` (`khqrPayment.js:428-441`): clears the
interval registered in `activeIntervals` (if any) and removes the
`paymentCheckers` entry.  It does not touch any `setTimeout` created by
`deleteQRAfterTimeout`. -/
def clearUserPaymentChecker (s : EngineState) (userId : Nat) : EngineState :=
  let s :=
    match mapGet s.activeIntervals userId with
    | some idx =>
      { s with intervals := updateItv s.intervals idx (fun it => { it with cleared := true })
               activeIntervals := mapDel s.activeIntervals userId }
    | none => s
  { s with paymentCheckers := mapDel s.paymentCheckers userId }

/-- Oracle inputs consumed by one `generateQR` call: the freshly loaded
settings, the oracle for the embedded `generateQRCode` call, the message id
the Telegram transport assigns to the delivered QR photo, whether
`Transaction.create` throws, and `Date.now()`. -/
structure TopupEnv where
  settings : Settings
  qrEnv : QRCodeEnv
  photoMessageId : Nat
  txCreateFails : Bool
  now : Nat
deriving DecidableEq, Repr

/-- How one `generateQR` call returned. -/
inductive TopupOutcome
  | rejectedInvalid
  | rejectedBelowMin
  | rejectedAboveMax
  | gatewayFailed (error : String)
  | missingQrOrMd5
  | started (md5 : String)
deriving DecidableEq, Repr

/-- `generateQR(chatId, userId, amount)` (`khqrPayment.js:178-281`), the
StartTopup operation.  In order: validates the amount (three rejection
messages); calls `generateQRCode` and rejects on failure or on a falsy
`qrUrl`/`md5Hash`; calls `clearUserPaymentChecker`; delivers the QR photo
(both the styled card and the fallback deliver one photo); stores the
`paymentCheckers` entry; persists the pending transaction row inside a
`try`/`catch` that only logs; starts the poll interval, registering it in
`activeIntervals`; and schedules the 10-minute deletion timeout. -/
def generateQR (s : EngineState) (chatId : Nat) (amount : JSNum)
    (env : TopupEnv) : EngineState × TopupOutcome :=
  if amount.falsy || amount.isNaN || amount.leQ 0 then
    ({ s with sentMessages := s.sentMessages ++
        [⟨chatId, "Invalid amount! Please enter a numeric value."⟩] },
     .rejectedInvalid)
  else if amount.ltQ env.settings.minTopupAmount then
    ({ s with sentMessages := s.sentMessages ++
        [⟨chatId, "Minimum topup amount is $" ++
          toString env.settings.minTopupAmount ++
          ". Please enter a higher amount."⟩] },
     .rejectedBelowMin)
  else if amount.gtQ env.settings.maxTopupAmount then
    ({ s with sentMessages := s.sentMessages ++
        [⟨chatId, "Maximum topup amount is $" ++
          toString env.settings.maxTopupAmount ++
          ". Please enter a lower amount."⟩] },
     .rejectedAboveMax)
  else
    let s := { s with gatewayCreateCalls := s.gatewayCreateCalls + 1 }
    match generateQRCode env.qrEnv with
    | .failure e =>
      ({ s with sentMessages := s.sentMessages ++
          [⟨chatId, "Failed to generate QR code: " ++ e⟩] },
       .gatewayFailed e)
    | .success qr =>
      if ¬ truthyS qr.qrUrl ∨ qr.md5Hash = "" then
        ({ s with sentMessages := s.sentMessages ++
            [⟨chatId, "Failed to generate QR code: Missing QR URL or MD5."⟩] },
         .missingQrOrMd5)
      else
        let s := clearUserPaymentChecker s chatId
        let s := { s with sentPhotos := s.sentPhotos ++ [(chatId, env.photoMessageId)] }
        let checker : Checker :=
          { md5 := qr.md5Hash
            tran_id := qr.transactionId
            message_id := env.photoMessageId
            timestamp := env.now
            amount := amount.toRat
            completed := false }
        let s := { s with paymentCheckers := mapSet s.paymentCheckers chatId checker }
        let s := if env.txCreateFails then s
          else { s with transactions := s.transactions ++
            [{ user_id := chatId
               type := "topup"
               amount := amount.toRat
               status := "pending"
               md5_hash := some qr.md5Hash
               message_id := some env.photoMessageId
               qr_url := qr.qrUrl
               transaction_id :=
                 if qr.transactionId ≠ "" then qr.transactionId
                 else "topup_" ++ toString env.now ++ "_" ++ toString chatId
               timestamp := env.now
               completed_date := none }] }
        let itv : Interval :=
          { userId := chatId
            md5 := qr.md5Hash
            amount := amount.toRat
            checkCount := 0
            cleared := false }
        let s := { s with
          intervals := s.intervals ++ [itv]
          activeIntervals := mapSet s.activeIntervals chatId s.intervals.length }
        let tm : Timer := { userId := chatId, fireAt := env.now + 600000, fired := false }
        let s := { s with timers := s.timers ++ [tm] }
        (s, .started qr.md5Hash)

/-- One scheduler event: a poll-interval firing, a deletion-timeout firing,
or a cleanup-service run.  Quantifying over event lists quantifies over the
interleavings the cooperative scheduler can produce. -/
inductive Event
  | tickEv (idx : Nat) (e : TickEnv)
  | timerEv (idx : Nat) (deleteMsgFails : Bool)
  | cleanupEv (now : Nat)

/-- Apply one scheduler event. -/
def step (s : EngineState) : Event → EngineState
  | .tickEv idx e => tick s idx e
  | .timerEv idx f => timerFire s idx f
  | .cleanupEv now => cleanupExpiredTransactions s now

/-- Apply a list of scheduler events in order. -/
def run (s : EngineState) (es : List Event) : EngineState :=
  es.foldl step s

/-- Amount validity in the words of the specification: a finite positive
number within the configured `[minTopupAmount, maxTopupAmount]` bounds. -/
def specValidAmount (st : Settings) (a : JSNum) : Prop :=
  ∃ q : ℚ, a = .fin q ∧ 0 < q ∧ st.minTopupAmount ≤ q ∧ q ≤ st.maxTopupAmount

/-- The failure condition of `createPayment` in the words of the
specification sentence behind claim C7: network failure, non-2xx response,
or a response missing both a displayable QR artifact and a payment hash. -/
def specFailC7 (env : QRCodeEnv) : Bool :=
  match env.http with
  | .netErr => true
  | .resp r =>
    ¬ is2xx r.status ||
      (match r.data with
       | none => true
       | some d => ¬ (truthyS d.qr || truthyS d.qrdata) && ¬ truthyS d.md5)

/-- The paid condition in the words of the specification sentence behind
claim C8: the gateway response carries response code 0. -/
def specPaidC8 : HttpOutcome CheckResponse → Bool
  | .netErr => false
  | .resp r => r.responseCode = some 0

/-- Whether a `generateQRCode` result is a failure. -/
def QRResult.isFailure : QRResult → Bool
  | .failure _ => true
  | .success _ => false

/-- The shape of a create response that `generateQRCode` accepts: a
delivered 2xx response whose data is truthy and carries a truthy `qr` or
`qrdata` together with a truthy `md5`. -/
def createOkShape (env : QRCodeEnv) : Bool :=
  match env.http with
  | .netErr => false
  | .resp r =>
    is2xx r.status &&
      (match r.data with
       | none => false
       | some d => (truthyS d.qr || truthyS d.qrdata) && truthyS d.md5)

/-- Counterexample input for claim C7: a 2xx create response that carries a
displayable QR artifact but no payment hash. -/
def c7cexEnv : QRCodeEnv :=
  { http := .resp
      { status := 200
        data := some
          { qr := some "http://img", qrdata := none, md5 := none,
            transactionid := none } }
    toDataURL := none
    urlToB64 := none
    randomId := "RND" }

/-- Counterexample input for claim C8: a delivered response with HTTP
status 202 whose payload carries response code 0. -/
def c8cexResp : HttpOutcome CheckResponse :=
  .resp { status := 202, responseCode := some 0 }

/-- A representative pending ledger row: owner 42, a $10 top-up with hash
"H1", QR delivered as message 77 at time 1000. -/
def demoRow : TxRow :=
  { user_id := 42
    type := "topup"
    amount := 10
    status := "pending"
    md5_hash := some "H1"
    message_id := some 77
    qr_url := some "http://img"
    transaction_id := "T1"
    timestamp := 1000
    completed_date := none }

/-- The in-memory checker entry matching `demoRow`. -/
def demoChecker : Checker :=
  { md5 := "H1", tran_id := "T1", message_id := 77, timestamp := 1000,
    amount := 10, completed := false }

/-- The oracle under which `generateQR` produces `demoState` from the
initial state. -/
def demoEnv : TopupEnv :=
  { settings := { minTopupAmount := 1, maxTopupAmount := 1000 }
    qrEnv :=
      { http := .resp
          { status := 200
            data := some
              { qr := some "http://img", qrdata := none, md5 := some "H1",
                transactionid := some "T1" } }
        toDataURL := none
        urlToB64 := some "data:b64"
        randomId := "RND456" }
    photoMessageId := 77
    txCreateFails := false
    now := 1000 }

/-- The engine state right after a successful StartTopup for owner 42:
pending row persisted, checker stored, one live poll interval and one
pending deletion timer (reachable from the initial state, see
`demoState_reachable`). -/
def demoState : EngineState :=
  { paymentCheckers := [(42, demoChecker)]
    activeIntervals := [(42, 0)]
    processedMd5 := []
    intervals := [{ userId := 42, md5 := "H1", amount := 10,
                    checkCount := 0, cleared := false }]
    timers := [{ userId := 42, fireAt := 601000, fired := false }]
    transactions := [demoRow]
    balances := fun _ => 0
    sentMessages := []
    sentPhotos := [(42, 77)]
    deletedMessages := []
    gatewayCreateCalls := 1 }

/-- Fault oracle for claim C2: the balance UPDATE throws, everything else
succeeds. -/
def c2FaultEnv : SettleEnv :=
  { sendConfirmFails := false, sendThanksFails := false,
    balanceUpdateFails := true, txUpdateFails := false,
    deleteMsgFails := false, now := 2000 }

/-- Tick oracle for claim C3: the gateway reports paid, and the first
confirmation `bot.sendMessage` throws. -/
def c3FaultTick : TickEnv :=
  { check := .resp { status := 200, responseCode := some 0 }
    settleEnv :=
      { sendConfirmFails := true, sendThanksFails := false,
        balanceUpdateFails := false, txUpdateFails := false,
        deleteMsgFails := false, now := 2000 }
    expireUpdateFails := false }

/-- Counterexample row for claim C9: a ledger entry already in the terminal
state `expired`. -/
def c9row : TxRow :=
  { user_id := 1
    type := "topup"
    amount := 5
    status := "expired"
    md5_hash := some "M"
    message_id := none
    qr_url := none
    transaction_id := "t1"
    timestamp := 0
    completed_date := none }

/-- Whether an event cannot perform a settlement: any timer or cleanup
event, and any poll tick whose status check is not a successful paid
result. -/
def Event.settleFree : Event → Bool
  | .tickEv _ e =>
    !((checkPaymentStatus e.check).success && (checkPaymentStatus e.check).paid)
  | .timerEv _ _ => true
  | .cleanupEv _ => true

/-- Oracle for a second StartTopup by owner 42 while the first (the one
that produced `demoState`) is still pending: hash "H2", QR delivered as
message 88 at time 1200. -/
def c4Env2 : TopupEnv :=
  { settings := { minTopupAmount := 1, maxTopupAmount := 1000 }
    qrEnv :=
      { http := .resp
          { status := 200
            data := some
              { qr := some "http://img2", qrdata := none, md5 := some "H2",
                transactionid := some "T2" } }
        toDataURL := none
        urlToB64 := some "data:b64b"
        randomId := "RND789" }
    photoMessageId := 88
    txCreateFails := false
    now := 1200 }

/-- The state after the second StartTopup superseded the first. -/
def c4s2 : EngineState := (generateQR demoState 42 (.fin 20) c4Env2).1

/-- The state after the first request's never-cancelled 10-minute timer
fires while the second request is pending. -/
def c4s3 : EngineState := timerFire c4s2 0 false

/-- Oracle for scenario B (claim C5): owner 7 requests $5, the gateway
returns hash "H2", the QR is delivered as message 99 at time 1000. -/
def c5Env : TopupEnv :=
  { settings := { minTopupAmount := 1, maxTopupAmount := 1000 }
    qrEnv :=
      { http := .resp
          { status := 200
            data := some
              { qr := some "http://img5", qrdata := none, md5 := some "H2",
                transactionid := some "T5" } }
        toDataURL := none
        urlToB64 := none
        randomId := "RND005" }
    photoMessageId := 99
    txCreateFails := false
    now := 1000 }

/-- The engine state after scenario B's StartTopup. -/
def c5Start : EngineState := (generateQR EngineState.init 7 (.fin 5) c5Env).1

/-- A poll tick whose status check parses to a not-paid response code. -/
def c5NotPaidTick : TickEnv :=
  { check := .resp { status := 200, responseCode := some 1 }
    settleEnv := SettleEnv.ok 0
    expireUpdateFails := false }

/-- Scenario B interleaving in which the cleanup service's first run past
the 10-minute mark precedes the delayed expiry timer: 600 not-paid poll
ticks, then a cleanup run at time 601601, then the timer. -/
def c5Trace : List Event :=
  List.replicate 600 (.tickEv 0 c5NotPaidTick) ++
    [.cleanupEv 601601, .timerEv 0 false]

/-- The final state of the cleanup-first interleaving. -/
def c5Final : EngineState := run c5Start c5Trace

/-- Scenario B interleaving in which the expiry timer fires before the
cleanup service's run. -/
def c5TraceTimerFirst : List Event :=
  List.replicate 600 (.tickEv 0 c5NotPaidTick) ++
    [.timerEv 0 false, .cleanupEv 601601]

/-- The final state of the timer-first interleaving. -/
def c5FinalTimerFirst : EngineState := run c5Start c5TraceTimerFirst

/-- Oracle for claim C10: the demo StartTopup, but the INSERT persisting
the pending row throws. -/
def c10Env : TopupEnv :=
  { demoEnv with txCreateFails := true }

end KHQR

namespace KHQR

lemma run_nil (s : EngineState) : run s [] = s := rfl

lemma run_cons (s : EngineState) (ev : Event) (es : List Event) :
    run s (ev :: es) = run (step s ev) es := rfl

lemma run_append (s : EngineState) (es₁ es₂ : List Event) :
    run s (es₁ ++ es₂) = run (run s es₁) es₂ :=
  List.foldl_append ..

/-- C6: for every amount that is not a finite positive number or lies
outside the configured `[minTopupAmount, maxTopupAmount]` bounds, the
StartTopup operation `generateQR` returns through one of the three
validation-rejection branches and performs no side effect: no gateway
`createPayment` call is made, no ledger entry is created, no poll interval
or expiry timer is scheduled, the payment-checker map and the balances are
untouched. -/
theorem C6_invalid_amount_rejected_no_side_effects
    (s : EngineState) (chatId : Nat) (amount : JSNum) (env : TopupEnv)
    (hinv : ¬ specValidAmount env.settings amount) :
    ((generateQR s chatId amount env).2 = .rejectedInvalid ∨
     (generateQR s chatId amount env).2 = .rejectedBelowMin ∨
     (generateQR s chatId amount env).2 = .rejectedAboveMax) ∧
    (generateQR s chatId amount env).1.gatewayCreateCalls = s.gatewayCreateCalls ∧
    (generateQR s chatId amount env).1.transactions = s.transactions ∧
    (generateQR s chatId amount env).1.intervals = s.intervals ∧
    (generateQR s chatId amount env).1.timers = s.timers ∧
    (generateQR s chatId amount env).1.paymentCheckers = s.paymentCheckers ∧
    (generateQR s chatId amount env).1.balances = s.balances := by
  have hrej : (amount.falsy || amount.isNaN || amount.leQ 0) = true ∨
      ((amount.falsy || amount.isNaN || amount.leQ 0) = false ∧
        amount.ltQ env.settings.minTopupAmount = true) ∨
      ((amount.falsy || amount.isNaN || amount.leQ 0) = false ∧
        amount.ltQ env.settings.minTopupAmount = false ∧
        amount.gtQ env.settings.maxTopupAmount = true) := by
    cases amount with
    | nan => simp [JSNum.falsy, JSNum.isNaN, JSNum.leQ]
    | posInf => simp [JSNum.falsy, JSNum.isNaN, JSNum.leQ, JSNum.ltQ, JSNum.gtQ]
    | negInf => simp [JSNum.falsy, JSNum.isNaN, JSNum.leQ]
    | fin q =>
      by_cases h0 : q ≤ 0
      · left
        simp [JSNum.falsy, JSNum.isNaN, JSNum.leQ, h0]
      · have hne : ¬ q = 0 := fun hq => h0 (le_of_eq hq)
        by_cases hmin : q < env.settings.minTopupAmount
        · right; left
          simp [JSNum.falsy, JSNum.isNaN, JSNum.leQ, JSNum.ltQ, h0, hmin, hne]
        · by_cases hmax : env.settings.maxTopupAmount < q
          · right; right
            simp [JSNum.falsy, JSNum.isNaN, JSNum.leQ, JSNum.ltQ, JSNum.gtQ,
              h0, hmin, hmax, hne]
          · exact absurd ⟨q, rfl, lt_of_not_le h0, le_of_not_lt hmin,
              le_of_not_lt hmax⟩ hinv
  rcases hrej with h | ⟨h1, h2⟩ | ⟨h1, h2, h3⟩ <;>
    simp [generateQR, *]

/-- Concrete discharge of C6 at `NaN` with the default bounds. -/
theorem C6_invalid_amount_rejected_no_side_effects_witness :
    ¬ specValidAmount ⟨1/100, 1000⟩ JSNum.nan ∧
    ((generateQR EngineState.init 5 JSNum.nan
        ⟨⟨1/100, 1000⟩, ⟨.netErr, none, none, "r"⟩, 9, false, 0⟩).1.transactions =
      EngineState.init.transactions) := by
  have h : ¬ specValidAmount ⟨1/100, 1000⟩ JSNum.nan := by
    simp [specValidAmount]
  exact ⟨h, (C6_invalid_amount_rejected_no_side_effects EngineState.init 5
    JSNum.nan ⟨⟨1/100, 1000⟩, ⟨.netErr, none, none, "r"⟩, 9, false, 0⟩ h).2.2.1⟩

/-- A valid amount in the specification's sense passes every validation
check of `generateQR`. -/
lemma specValid_checks (st : Settings) (a : JSNum)
    (h : specValidAmount st a) :
    a.falsy = false ∧ a.isNaN = false ∧ a.leQ 0 = false ∧
    a.ltQ st.minTopupAmount = false ∧ a.gtQ st.maxTopupAmount = false := by
  obtain ⟨q, rfl, h0, hmin, hmax⟩ := h
  refine ⟨?_, rfl, ?_, ?_, ?_⟩
  · simpa [JSNum.falsy] using ne_of_gt h0
  · simpa [JSNum.leQ] using h0
  · simpa [JSNum.ltQ] using hmin
  · simpa [JSNum.gtQ] using hmax

/-- C7 counterexample: a 2xx create response carrying a displayable QR
artifact (`qr`) but no payment hash (`md5`) does not satisfy the claim's
failure condition (it is not missing both), yet `generateQRCode` fails on
it — so `createPayment` does not fail exactly under the claim's
conditions. -/
theorem C7_counterexample :
    specFailC7 c7cexEnv = false ∧
    generateQRCode c7cexEnv = .failure "Invalid response from payment service" := by
  decide

/-- C7 amended: `generateQRCode` fails exactly when the HTTP call throws
(network failure or non-2xx status) or the delivered response lacks truthy
data, lacks a payment hash, or lacks both of the displayable-artifact
fields; and on any such failure the StartTopup operation `generateQR` with
a valid amount surfaces the failure message to the caller and leaves the
ledger, the scheduled tasks and the checker map untouched. -/
theorem C7_amended_create_failure
    (env : QRCodeEnv) :
    ((generateQRCode env).isFailure = (! createOkShape env)) ∧
    (∀ (s : EngineState) (chatId : Nat) (amount : JSNum) (tenv : TopupEnv)
        (e : String),
      tenv.qrEnv = env → generateQRCode env = .failure e →
      specValidAmount tenv.settings amount →
      (generateQR s chatId amount tenv).2 = .gatewayFailed e ∧
      (generateQR s chatId amount tenv).1.transactions = s.transactions ∧
      (generateQR s chatId amount tenv).1.intervals = s.intervals ∧
      (generateQR s chatId amount tenv).1.timers = s.timers ∧
      (generateQR s chatId amount tenv).1.paymentCheckers = s.paymentCheckers ∧
      (generateQR s chatId amount tenv).1.sentMessages =
        s.sentMessages ++ [⟨chatId, "Failed to generate QR code: " ++ e⟩]) := by
  constructor
  · cases h : env.http with
    | netErr => simp [generateQRCode, createOkShape, h, QRResult.isFailure]
    | resp r =>
      by_cases h2 : is2xx r.status
      · cases hd : r.data with
        | none =>
          simp [generateQRCode, createOkShape, h, h2, hd, QRResult.isFailure]
        | some d =>
          by_cases hg : ((truthyS d.qr || truthyS d.qrdata) && truthyS d.md5) = true
          · simp [generateQRCode, createOkShape, h, h2, hd, hg, QRResult.isFailure]
          · simp [generateQRCode, createOkShape, h, h2, hd, hg, QRResult.isFailure]
      · simp [generateQRCode, createOkShape, h, h2, QRResult.isFailure]
  · intro s chatId amount tenv e henv hfail hvalid
    obtain ⟨h1, h2, h3, h4, h5⟩ := specValid_checks tenv.settings amount hvalid
    subst henv
    simp [generateQR, h1, h2, h3, h4, h5, hfail]

/-- Concrete discharge of C7 amended on a network failure with amount 10. -/
theorem C7_amended_create_failure_witness :
    (generateQR EngineState.init 5 (.fin 10)
        ⟨⟨1/100, 1000⟩, ⟨.netErr, none, none, "r"⟩, 9, false, 0⟩).2 =
      .gatewayFailed "Failed to generate payment QR code" ∧
    (generateQR EngineState.init 5 (.fin 10)
        ⟨⟨1/100, 1000⟩, ⟨.netErr, none, none, "r"⟩, 9, false, 0⟩).1.transactions =
      EngineState.init.transactions := by
  have hv : specValidAmount ⟨1/100, 1000⟩ (.fin 10) :=
    ⟨10, rfl, by norm_num, by norm_num, by norm_num⟩
  have h := (C7_amended_create_failure ⟨.netErr, none, none, "r"⟩).2
    EngineState.init 5 (.fin 10)
    ⟨⟨1/100, 1000⟩, ⟨.netErr, none, none, "r"⟩, 9, false, 0⟩
    "Failed to generate payment QR code" rfl rfl hv
  exact ⟨h.1, h.2.1⟩

/-- A live poll tick whose status check does not report a successful paid
result, with the tick count still below the bound, only increments the
interval's counter: it settles nothing, touches neither the durable store
nor the guard set, and keeps the loop alive. -/
lemma tick_notPaid (s : EngineState) (idx : Nat) (itv : Interval)
    (e : TickEnv)
    (hget : s.intervals.get? idx = some itv)
    (hcl : itv.cleared = false)
    (hch : (mapGet s.paymentCheckers itv.userId).isSome = true)
    (hpm : itv.md5 ∉ s.processedMd5)
    (hnp : ((checkPaymentStatus e.check).success &&
      (checkPaymentStatus e.check).paid) = false)
    (hc : itv.checkCount + 1 < maxChecks) :
    tick s idx e =
      { s with
        intervals := updateItv s.intervals idx
          (fun it => { it with checkCount := itv.checkCount + 1 }) } := by
  have hnone : (mapGet s.paymentCheckers itv.userId).isNone = false := by
    cases h : mapGet s.paymentCheckers itv.userId with
    | none => rw [h] at hch; simp at hch
    | some v => simp
  have hget' : s.intervals[idx]? = some itv := by
    rw [← List.get?_eq_getElem?]; exact hget
  simp [tick, hget', hcl, hnone, hpm, hnp, Nat.not_le.mpr hc]

/-- C8 counterexample: a delivered response with HTTP status 202 carrying
response code 0 satisfies the claim's paid condition, yet
`checkPaymentStatus` reports it as `{success:false, paid:false}` — not
paid, and an error rather than a successful not-paid result. -/
theorem C8_counterexample :
    specPaidC8 c8cexResp = true ∧
    checkPaymentStatus c8cexResp = { success := false, paid := false } := by
  decide

/-- C8 amended: `checkPaymentStatus` reports paid exactly for a delivered
response with HTTP status 200 or 201 carrying response code 0; it reports a
successful result exactly for statuses 200 and 201 (so any other parsable
code there is a successful not-paid result); every other outcome — network
failure, non-2xx status, or a 2xx status other than 200/201 — is an error
result; and a live poll tick whose check is not a successful paid result
never settles: it leaves balances, ledger and guard set untouched and only
increments its counter, continuing below the tick bound. -/
theorem C8_amended_check_status
    (h : HttpOutcome CheckResponse) :
    ((checkPaymentStatus h).paid = true ↔
      ∃ r, h = .resp r ∧ (r.status = 200 ∨ r.status = 201) ∧
        r.responseCode = some 0) ∧
    ((checkPaymentStatus h).success = true ↔
      ∃ r, h = .resp r ∧ (r.status = 200 ∨ r.status = 201)) ∧
    (∀ (s : EngineState) (idx : Nat) (itv : Interval) (e : TickEnv),
      e.check = h →
      s.intervals.get? idx = some itv →
      itv.cleared = false →
      (mapGet s.paymentCheckers itv.userId).isSome = true →
      itv.md5 ∉ s.processedMd5 →
      (checkPaymentStatus h).paid = false →
      itv.checkCount + 1 < maxChecks →
      (tick s idx e).balances = s.balances ∧
      (tick s idx e).processedMd5 = s.processedMd5 ∧
      (tick s idx e).transactions = s.transactions ∧
      (tick s idx e).intervals = updateItv s.intervals idx
        (fun it => { it with checkCount := itv.checkCount + 1 })) := by
  refine ⟨?_, ?_, ?_⟩
  · cases h with
    | netErr => simp [checkPaymentStatus]
    | resp r =>
      by_cases h200 : r.status = 200 ∨ r.status = 201
      · have h2 : is2xx r.status = true := by
          rcases h200 with h | h <;> simp [is2xx, h]
        simp [checkPaymentStatus, h2, h200]
      · by_cases h2 : is2xx r.status = true
        · simp [checkPaymentStatus, h2, h200]
        · simp [checkPaymentStatus, h2, h200]
  · cases h with
    | netErr => simp [checkPaymentStatus]
    | resp r =>
      by_cases h200 : r.status = 200 ∨ r.status = 201
      · have h2 : is2xx r.status = true := by
          rcases h200 with h | h <;> simp [is2xx, h]
        simp [checkPaymentStatus, h2, h200]
      · by_cases h2 : is2xx r.status = true
        · simp [checkPaymentStatus, h2, h200]
        · simp [checkPaymentStatus, h2, h200]
  · intro s idx itv e hcheck hget hcl hch hpm hpaid hc
    have hnp : ((checkPaymentStatus e.check).success &&
        (checkPaymentStatus e.check).paid) = false := by
      rw [hcheck, hpaid]; simp
    rw [tick_notPaid s idx itv e hget hcl hch hpm hnp hc]
    exact ⟨rfl, rfl, rfl, rfl⟩

/-- Concrete discharge of C8 amended: response code 0 at status 200 is
paid, and a not-paid tick at count 0 only bumps the counter. -/
theorem C8_amended_check_status_witness :
    (checkPaymentStatus (.resp { status := 200, responseCode := some 0 })).paid = true ∧
    (checkPaymentStatus (.resp { status := 200, responseCode := some 7 })).success = true := by
  constructor
  · exact (C8_amended_check_status
      (.resp { status := 200, responseCode := some 0 })).1.mpr
      ⟨{ status := 200, responseCode := some 0 }, rfl, Or.inl rfl, rfl⟩
  · exact (C8_amended_check_status
      (.resp { status := 200, responseCode := some 7 })).2.1.mpr
      ⟨{ status := 200, responseCode := some 7 }, rfl, Or.inl rfl⟩

/-- C9 counterexample: the settle path's mark-completed operation applied
to a ledger entry already in the terminal state `expired` does not leave it
expired — it overwrites the status to `completed` and refreshes the
completion timestamp. -/
theorem C9_counterexample :
    c9row.status = "expired" ∧
    (markCompletedRun [c9row] "M" 1 5 99).map TxRow.status = ["completed"] ∧
    (markCompletedRun [c9row] "M" 1 5 99).map TxRow.completed_date = [some 99] := by
  decide

/-- C9 amended: the expiry-path UPDATE is guarded by `status = "pending"`,
so it is an idempotent no-op whenever every matching entry is already
terminal; but the settle path's mark-completed UPDATE carries no status
guard: every entry matching the hash and owner — whatever its prior status,
in particular an already-expired one — ends up `completed` with a refreshed
completion timestamp. -/
theorem C9_amended_terminal_transitions :
    (∀ (tbl : List TxRow) (m : String) (u : Nat),
      (∀ r ∈ tbl, r.md5_hash = some m → r.user_id = u → r.status ≠ "pending") →
      markExpiredRun tbl m u = tbl) ∧
    (∀ (tbl : List TxRow) (m : String) (u : Nat) (a : ℚ) (now : Nat),
      ∀ r ∈ markCompletedRun tbl m u a now,
        r.md5_hash = some m → r.user_id = u →
        r.status = "completed" ∧ r.completed_date = some now) := by
  constructor
  · intro tbl m u h
    have : ∀ r ∈ tbl,
        (if r.md5_hash = some m ∧ r.user_id = u ∧ r.status = "pending" then
          { r with status := "expired" } else r) = r := by
      intro r hr
      rw [if_neg]
      rintro ⟨h1, h2, h3⟩
      exact h r hr h1 h2 h3
    calc markExpiredRun tbl m u
        = tbl.map id := List.map_congr_left this
      _ = tbl := tbl.map_id
  · intro tbl m u a now r hr hm hu
    have hmem : ∀ r₀ ∈ (sqlMarkCompleted tbl m u now).1,
        r₀.md5_hash = some m → r₀.user_id = u →
        r₀.status = "completed" ∧ r₀.completed_date = some now := by
      intro r₀ hr₀ hm₀ hu₀
      simp only [sqlMarkCompleted, List.mem_map] at hr₀
      obtain ⟨r₁, hr₁, hfr⟩ := hr₀
      by_cases hcond : r₁.md5_hash = some m ∧ r₁.user_id = u
      · rw [if_pos hcond] at hfr
        rw [← hfr]
        exact ⟨rfl, rfl⟩
      · rw [if_neg hcond] at hfr
        subst hfr
        exact absurd ⟨hm₀, hu₀⟩ hcond
    unfold markCompletedRun at hr
    by_cases hch : (sqlMarkCompleted tbl m u now).2 = 0
    · rw [if_pos hch] at hr
      unfold sqlInsertCompleted at hr
      rcases List.mem_append.mp hr with h1 | h2
      · exact hmem r h1 hm hu
      · simp only [List.mem_singleton] at h2
        subst h2
        exact ⟨rfl, rfl⟩
    · rw [if_neg hch] at hr
      exact hmem r hr hm hu

/-- Concrete discharge of C9 amended: an already-expired entry is untouched
by the expiry UPDATE and overwritten by the mark-completed UPDATE. -/
theorem C9_amended_terminal_transitions_witness :
    markExpiredRun [c9row] "M" 1 = [c9row] ∧
    ∀ r ∈ markCompletedRun [c9row] "M" 1 5 99,
      r.md5_hash = some "M" → r.user_id = 1 →
      r.status = "completed" ∧ r.completed_date = some 99 := by
  constructor
  · exact (C9_amended_terminal_transitions).1 [c9row] "M" 1
      (by intro r hr h1 h2; simp only [List.mem_singleton] at hr; subst hr; decide)
  · exact (C9_amended_terminal_transitions).2 [c9row] "M" 1 5 99

/-- The demo state is the StartTopup output on the initial state under the
demo oracle: the counterexample states below are reachable. -/
lemma demoState_reachable :
    generateQR EngineState.init 42 (.fin 10) demoEnv =
      (demoState, .started "H1") := by
  rfl

/-- Core shape of a fresh settle whose confirmation sends succeed: the
guard is set, the balance credit happens unless its own UPDATE throws, the
ledger completion happens unless its own UPDATE/INSERT throws, and no
exception escapes. -/
lemma settle_core (s : EngineState) (u : Nat) (m : String) (a : ℚ)
    (e : SettleEnv)
    (hm : m ∉ s.processedMd5)
    (hs1 : e.sendConfirmFails = false) (hs2 : e.sendThanksFails = false) :
    (settle s u m a e).1.balances =
      (if e.balanceUpdateFails then s.balances
        else creditBalance s.balances u a) ∧
    (settle s u m a e).1.transactions =
      (if e.txUpdateFails then s.transactions
        else markCompletedRun s.transactions m u a e.now) ∧
    (settle s u m a e).1.processedMd5 = m :: s.processedMd5 ∧
    (settle s u m a e).2 = false := by
  unfold settle
  rw [if_neg hm, hs1, hs2]
  cases hb : e.balanceUpdateFails <;> cases ht : e.txUpdateFails <;>
    cases hch : mapGet s.paymentCheckers u <;>
      cases hd : e.deleteMsgFails <;>
        simp [hch, hd, mapDel]

/-- A settle whose hash is already in the guard set is a no-op. -/
lemma settle_guarded (s : EngineState) (u : Nat) (m : String) (a : ℚ)
    (e : SettleEnv) (hm : m ∈ s.processedMd5) :
    settle s u m a e = (s, false) := by
  unfold settle
  rw [if_pos hm]

/-- The changes count of the settle path's UPDATE equals the number of rows
carrying the hash, provided every row with the hash belongs to the owner. -/
lemma sqlMarkCompleted_changes (tbl : List TxRow) (m : String) (u : Nat)
    (now : Nat)
    (huser : ∀ r ∈ tbl, r.md5_hash = some m → r.user_id = u) :
    (sqlMarkCompleted tbl m u now).2 =
      (tbl.filter (fun r => r.md5_hash = some m)).length := by
  unfold sqlMarkCompleted
  dsimp only
  congr 1
  apply List.filter_congr
  intro r hr
  by_cases h1 : r.md5_hash = some m
  · simp [h1, huser r hr h1]
  · simp [h1]

/-- Counting completed rows for the hash after the settle path's UPDATE:
one per pre-existing row with the hash (owner-matching rows are completed,
hash-less rows never match). -/
lemma sqlMarkCompleted_count (m : String) (u : Nat) (now : Nat) :
    ∀ (tbl : List TxRow),
    (∀ r ∈ tbl, r.md5_hash = some m → r.user_id = u) →
    (((sqlMarkCompleted tbl m u now).1).filter
        (fun r => r.md5_hash = some m ∧ r.status = "completed")).length =
      (tbl.filter (fun r => r.md5_hash = some m)).length := by
  intro tbl
  induction tbl with
  | nil => intro _; rfl
  | cons r t ih =>
    intro huser
    have ht : ∀ r₀ ∈ t, r₀.md5_hash = some m → r₀.user_id = u :=
      fun r₀ h => huser r₀ (List.mem_cons_of_mem _ h)
    have iht := ih ht
    unfold sqlMarkCompleted at iht ⊢
    dsimp only at iht ⊢
    by_cases h1 : r.md5_hash = some m
    · have h2 : r.user_id = u := huser r (List.mem_cons_self _ _) h1
      rw [List.map_cons, if_pos ⟨h1, h2⟩]
      rw [List.filter_cons, List.filter_cons]
      rw [if_pos (by simp [h1]), if_pos (by simp [h1])]
      rw [List.length_cons, List.length_cons, iht]
    · rw [List.map_cons, if_neg (fun h => h1 h.1)]
      rw [List.filter_cons, List.filter_cons]
      rw [if_neg (by simp [h1]), if_neg (by simp [h1])]
      exact iht

/-- Exactly one completed row for the hash after the settle path's ledger
step, whether it updated the pending row or fell back to a direct insert. -/
lemma markCompletedRun_count (tbl : List TxRow) (m : String) (u : Nat)
    (a : ℚ) (now : Nat)
    (hcount : (tbl.filter (fun r => r.md5_hash = some m)).length ≤ 1)
    (huser : ∀ r ∈ tbl, r.md5_hash = some m → r.user_id = u) :
    ((markCompletedRun tbl m u a now).filter
        (fun r => r.md5_hash = some m ∧ r.status = "completed")).length = 1 := by
  unfold markCompletedRun
  rcases Nat.le_one_iff_eq_zero_or_eq_one.mp hcount with h0 | h1
  · have hch : (sqlMarkCompleted tbl m u now).2 = 0 := by
      rw [sqlMarkCompleted_changes tbl m u now huser, h0]
    rw [if_pos hch]
    have hnomatch : ∀ r ∈ tbl, ¬ (r.md5_hash = some m) := by
      have := List.filter_eq_nil_iff.mp (List.length_eq_zero.mp h0)
      intro r hr hcon
      exact this r hr (by simp [hcon])
    have hmap : (sqlMarkCompleted tbl m u now).1 = tbl := by
      unfold sqlMarkCompleted
      have : ∀ r ∈ tbl,
          (if r.md5_hash = some m ∧ r.user_id = u then
            { r with status := "completed", completed_date := some now }
          else r) = r := by
        intro r hr
        rw [if_neg (fun h => hnomatch r hr h.1)]
      calc tbl.map _ = tbl.map id := List.map_congr_left this
        _ = tbl := tbl.map_id
    rw [hmap]
    unfold sqlInsertCompleted
    rw [List.filter_append]
    have hfil : tbl.filter
        (fun r => r.md5_hash = some m ∧ r.status = "completed") = [] := by
      apply List.filter_eq_nil_iff.mpr
      intro r hr
      simp only [decide_eq_true_eq, not_and]
      intro hcon
      exact absurd hcon (hnomatch r hr)
    rw [hfil]
    simp
  · have hch : ¬ ((sqlMarkCompleted tbl m u now).2 = 0) := by
      rw [sqlMarkCompleted_changes tbl m u now huser, h1]
      exact one_ne_zero
    rw [if_neg hch, sqlMarkCompleted_count m u now tbl huser, h1]

/-- C1: for a fresh payment hash whose ledger carries at most one row (all
owned by the paying user), one fault-free settle credits the owner's
balance by exactly the amount and leaves exactly one completed ledger entry
for the hash; a second settle with the same hash is a guard-hit no-op
returning the state unchanged; and any still-live poll interval for that
hash stops immediately at the processed-hash guard on its next tick,
whatever its status check would report. -/
theorem C1_settle_exactly_once
    (s : EngineState) (u : Nat) (m : String) (a : ℚ) (now now' : Nat)
    (hm : m ∉ s.processedMd5)
    (hcount : (s.transactions.filter (fun r => r.md5_hash = some m)).length ≤ 1)
    (huser : ∀ r ∈ s.transactions, r.md5_hash = some m → r.user_id = u) :
    (settle s u m a (.ok now)).1.balances u = s.balances u + a ∧
    ((settle s u m a (.ok now)).1.transactions.filter
        (fun r => r.md5_hash = some m ∧ r.status = "completed")).length = 1 ∧
    settle (settle s u m a (.ok now)).1 u m a (.ok now') =
      ((settle s u m a (.ok now)).1, false) ∧
    (∀ (idx : Nat) (itv : Interval) (e : TickEnv),
      (settle s u m a (.ok now)).1.intervals.get? idx = some itv →
      itv.cleared = false → itv.md5 = m →
      tick (settle s u m a (.ok now)).1 idx e =
        clearTick (settle s u m a (.ok now)).1 idx itv.userId) := by
  obtain ⟨hbal, htx, hpm, -⟩ :=
    settle_core s u m a (.ok now) hm rfl rfl
  rw [if_neg (by simp [SettleEnv.ok])] at hbal
  rw [if_neg (by simp [SettleEnv.ok])] at htx
  have hmem : m ∈ (settle s u m a (.ok now)).1.processedMd5 := by
    rw [hpm]; exact List.mem_cons_self m _
  refine ⟨?_, ?_, settle_guarded _ u m a _ hmem, ?_⟩
  · rw [hbal]; simp [creditBalance]
  · rw [htx]
    exact markCompletedRun_count s.transactions m u a
      (SettleEnv.ok now).now hcount huser
  · intro idx itv e hget hcl hmd5
    have hmem' : itv.md5 ∈ (settle s u m a (.ok now)).1.processedMd5 := by
      rw [hmd5]; exact hmem
    unfold tick
    rw [hget]
    simp only [hcl, Bool.false_eq_true, if_false]
    cases hch : mapGet (settle s u m a (.ok now)).1.paymentCheckers itv.userId with
    | none => simp [hch]
    | some v => simp [hch, hmem']

/-- Concrete discharge of C1 on the demo state: settling hash "H1" twice
credits owner 42 exactly once. -/
theorem C1_settle_exactly_once_witness :
    (settle demoState 42 "H1" 10 (.ok 5)).1.balances 42 =
      demoState.balances 42 + 10 ∧
    ((settle demoState 42 "H1" 10 (.ok 5)).1.transactions.filter
        (fun r => r.md5_hash = some "H1" ∧ r.status = "completed")).length = 1 ∧
    settle (settle demoState 42 "H1" 10 (.ok 5)).1 42 "H1" 10 (.ok 6) =
      ((settle demoState 42 "H1" 10 (.ok 5)).1, false) := by
  have h := C1_settle_exactly_once demoState 42 "H1" 10 5 6
    (by decide) (by decide) (by decide)
  exact ⟨h.1, h.2.1, h.2.2.1⟩

/-- C2 counterexample: from the reachable state `demoState`
(`demoState_reachable`), a settle of the gateway-confirmed hash "H1" in
which the balance UPDATE throws while the ledger UPDATE succeeds leaves the
ledger entry `completed` with owner 42's balance un-credited — the two
steps do not share one transaction scope. -/
theorem C2_counterexample :
    (settle demoState 42 "H1" 10 c2FaultEnv).1.transactions.map TxRow.status =
      ["completed"] ∧
    (settle demoState 42 "H1" 10 c2FaultEnv).1.balances 42 =
      demoState.balances 42 := by
  decide

/-- C2 amended: the balance credit and the ledger completion are two
consecutive but separate storage operations, each wrapped in its own
log-and-swallow error handler: whenever the settle path runs for a fresh
hash with the confirmation sends succeeding, the balance is credited if and
only if the balance UPDATE itself does not throw, and the ledger completion
is applied if and only if its own UPDATE/INSERT does not throw — neither
step's failure prevents or rolls back the other. -/
theorem C2_amended_independent_steps
    (s : EngineState) (u : Nat) (m : String) (a : ℚ) (e : SettleEnv)
    (hm : m ∉ s.processedMd5)
    (hs1 : e.sendConfirmFails = false) (hs2 : e.sendThanksFails = false) :
    (settle s u m a e).1.balances =
      (if e.balanceUpdateFails then s.balances
        else creditBalance s.balances u a) ∧
    (settle s u m a e).1.transactions =
      (if e.txUpdateFails then s.transactions
        else markCompletedRun s.transactions m u a e.now) := by
  obtain ⟨h1, h2, -, -⟩ := settle_core s u m a e hm hs1 hs2
  exact ⟨h1, h2⟩

/-- Concrete discharge of C2 amended under the balance-UPDATE fault. -/
theorem C2_amended_independent_steps_witness :
    (settle demoState 42 "H1" 10 c2FaultEnv).1.balances =
      demoState.balances ∧
    (settle demoState 42 "H1" 10 c2FaultEnv).1.transactions =
      markCompletedRun demoState.transactions "H1" 42 10 2000 := by
  have h := C2_amended_independent_steps demoState 42 "H1" 10 c2FaultEnv
    (by decide) rfl rfl
  simpa [c2FaultEnv] using h

/-- C3 counterexample: from the reachable state `demoState`, the gateway
reports hash "H1" paid but the first confirmation send throws: the tick's
outer catch aborts the settle after the processed-hash guard was set, so
the balance is never credited and the ledger entry stays `pending`, while
the cleared interval means no retry will ever settle it — a notification
failure does prevent the settlement. -/
theorem C3_counterexample :
    (tick demoState 0 c3FaultTick).balances 42 = demoState.balances 42 ∧
    (tick demoState 0 c3FaultTick).transactions.map TxRow.status =
      ["pending"] ∧
    (tick demoState 0 c3FaultTick).processedMd5 = ["H1"] ∧
    (tick demoState 0 c3FaultTick).intervals.map Interval.cleared = [true] := by
  decide

/-- C3 amended: a failure of the QR-artifact delete never prevents or rolls
back the settlement — with the confirmation sends and storage succeeding,
the balance credit and the completed ledger entry are produced whatever the
delete does; but the two confirmation message sends run before the balance
credit and are not individually guarded, so when the first send throws the
settle stops with the guard already set and neither the credit nor the
completion is ever performed. -/
theorem C3_amended_notification_failures
    (s : EngineState) (u : Nat) (m : String) (a : ℚ) (e : SettleEnv)
    (hm : m ∉ s.processedMd5)
    (hcount : (s.transactions.filter (fun r => r.md5_hash = some m)).length ≤ 1)
    (huser : ∀ r ∈ s.transactions, r.md5_hash = some m → r.user_id = u) :
    (e.sendConfirmFails = false → e.sendThanksFails = false →
      e.balanceUpdateFails = false → e.txUpdateFails = false →
      (settle s u m a e).1.balances u = s.balances u + a ∧
      ((settle s u m a e).1.transactions.filter
          (fun r => r.md5_hash = some m ∧ r.status = "completed")).length = 1) ∧
    (e.sendConfirmFails = true →
      (settle s u m a e).1.balances = s.balances ∧
      (settle s u m a e).1.transactions = s.transactions ∧
      (settle s u m a e).1.processedMd5 = m :: s.processedMd5 ∧
      (settle s u m a e).2 = true) := by
  constructor
  · intro hs1 hs2 hb ht
    obtain ⟨h1, h2, -, -⟩ := settle_core s u m a e hm hs1 hs2
    rw [hb] at h1
    rw [ht] at h2
    constructor
    · rw [h1]; simp [creditBalance]
    · rw [h2]
      exact markCompletedRun_count s.transactions m u a e.now hcount huser
  · intro hs1
    unfold settle
    rw [if_neg hm, hs1]
    exact ⟨rfl, rfl, rfl, rfl⟩

/-- Concrete discharge of C3 amended: on the demo state a failing artifact
delete still settles, and a failing confirmation send aborts the settle. -/
theorem C3_amended_notification_failures_witness :
    ((settle demoState 42 "H1" 10
        { sendConfirmFails := false, sendThanksFails := false,
          balanceUpdateFails := false, txUpdateFails := false,
          deleteMsgFails := true, now := 7 }).1.balances 42 =
      demoState.balances 42 + 10) ∧
    ((settle demoState 42 "H1" 10
        { sendConfirmFails := true, sendThanksFails := false,
          balanceUpdateFails := false, txUpdateFails := false,
          deleteMsgFails := false, now := 7 }).1.balances =
      demoState.balances) := by
  constructor
  · exact ((C3_amended_notification_failures demoState 42 "H1" 10
      { sendConfirmFails := false, sendThanksFails := false,
        balanceUpdateFails := false, txUpdateFails := false,
        deleteMsgFails := true, now := 7 }
      (by decide) (by decide) (by decide)).1 rfl rfl rfl rfl).1
  · exact ((C3_amended_notification_failures demoState 42 "H1" 10
      { sendConfirmFails := true, sendThanksFails := false,
        balanceUpdateFails := false, txUpdateFails := false,
        deleteMsgFails := false, now := 7 }
      (by decide) (by decide) (by decide)).2 rfl).1

/-- `Map.get` after `Map.delete` of the same key. -/
lemma mapGet_mapDel_self {α : Type} (l : List (Nat × α)) (k : Nat) :
    mapGet (mapDel l k) k = none := by
  unfold mapGet mapDel
  have hfind : List.find? (fun p => decide (p.1 = k))
      (l.filter (fun p => decide (p.1 ≠ k))) = none := by
    rw [List.find?_eq_none]
    intro x hx
    have := (List.mem_filter.mp hx).2
    simpa using this
  rw [hfind]
  rfl

/-- Reading back the element just written by `updateItv`. -/
lemma updateItv_get_self (l : List Interval) (idx : Nat) (x : Interval)
    (f : Interval → Interval) (h : l.get? idx = some x) :
    (updateItv l idx f).get? idx = some (f x) := by
  induction l generalizing idx with
  | nil => simp at h
  | cons a t ih =>
    cases idx with
    | zero =>
      simp only [List.get?] at h
      cases h
      rfl
    | succ n =>
      simp only [List.get?] at h
      exact ih n h

/-- `clearUserPaymentChecker` never touches the timers, the durable store,
or the balances. -/
lemma clearUser_frame (s : EngineState) (u : Nat) :
    (clearUserPaymentChecker s u).timers = s.timers ∧
    (clearUserPaymentChecker s u).transactions = s.transactions ∧
    (clearUserPaymentChecker s u).balances = s.balances := by
  unfold clearUserPaymentChecker
  cases h : mapGet s.activeIntervals u <;> simp [h]

/-- C4 counterexample: starting a second StartTopup for owner 42 while the
first is pending leaves two live (unfired) expiry timers, because the first
request's `setTimeout` handle is never stored or cancelled; and when the
superseded request's timer then fires, it deletes the new request's QR
artifact (message 88) and discards the new PaymentRequest. -/
theorem C4_counterexample :
    (c4s2.timers.filter (fun t => ! t.fired)).length = 2 ∧
    c4s3.deletedMessages = [(42, 88)] ∧
    mapGet c4s3.paymentCheckers 42 = none ∧
    c4s3.sentMessages = [{ chatId := 42, text := expiredText }] := by
  decide

/-- C4 amended: starting a new top-up cancels the owner's previous poll
loop deterministically before the new one starts —
`clearUserPaymentChecker` clears the interval registered for the owner and
discards the owner's PaymentRequest — but it cancels no expiry timer
(timers are untouched, as are ledger and balances); concretely, after the
second StartTopup for owner 42 exactly one live poll interval remains while
two live expiry timers exist, and the first request's ledger entry is still
pending. -/
theorem C4_amended_supersede (s : EngineState) (u : Nat) :
    (clearUserPaymentChecker s u).timers = s.timers ∧
    (clearUserPaymentChecker s u).transactions = s.transactions ∧
    mapGet (clearUserPaymentChecker s u).paymentCheckers u = none ∧
    mapGet (clearUserPaymentChecker s u).activeIntervals u = none ∧
    (∀ (idx : Nat) (itv : Interval),
      mapGet s.activeIntervals u = some idx →
      s.intervals.get? idx = some itv →
      (clearUserPaymentChecker s u).intervals.get? idx =
        some { itv with cleared := true }) ∧
    ((c4s2.intervals.filter (fun i => ! i.cleared)).length = 1 ∧
     (c4s2.timers.filter (fun t => ! t.fired)).length = 2 ∧
     c4s2.transactions.map TxRow.status = ["pending", "pending"] ∧
     c4s2.transactions.map TxRow.md5_hash = [some "H1", some "H2"]) := by
  obtain ⟨ht, htx, hb⟩ := clearUser_frame s u
  refine ⟨ht, htx, ?_, ?_, ?_, by decide⟩
  · unfold clearUserPaymentChecker
    cases h : mapGet s.activeIntervals u <;> simp [h, mapGet_mapDel_self]
  · unfold clearUserPaymentChecker
    cases h : mapGet s.activeIntervals u with
    | none => simp [h]
    | some idx => simp [h, mapGet_mapDel_self]
  · intro idx itv hidx hget
    unfold clearUserPaymentChecker
    rw [hidx]
    simpa using updateItv_get_self s.intervals idx itv _ hget

/-- Concrete discharge of C4 amended: clearing owner 42 on the demo state
clears interval 0 and keeps the timer. -/
theorem C4_amended_supersede_witness :
    (clearUserPaymentChecker demoState 42).timers = demoState.timers ∧
    (clearUserPaymentChecker demoState 42).intervals.get? 0 =
      some { userId := 42, md5 := "H1", amount := 10, checkCount := 0,
             cleared := true } := by
  refine ⟨(C4_amended_supersede demoState 42).1, ?_⟩
  exact (C4_amended_supersede demoState 42).2.2.2.2.1 0
    { userId := 42, md5 := "H1", amount := 10, checkCount := 0,
      cleared := false } (by decide) (by decide)

/-- When the owner has no registered interval, `clearUserPaymentChecker`
only removes the checker entry. -/
lemma clearUser_noActive (s : EngineState) (u : Nat)
    (h : mapGet s.activeIntervals u = none) :
    clearUserPaymentChecker s u =
      { s with paymentCheckers := mapDel s.paymentCheckers u } := by
  unfold clearUserPaymentChecker
  rw [h]

/-- `Map.get` right after `Map.set` of the same key. -/
lemma mapGet_mapSet_self {α : Type} (l : List (Nat × α)) (k : Nat) (v : α) :
    mapGet (mapSet l k v) k = some v := by
  unfold mapGet mapSet
  rw [List.find?_cons_of_pos _ (by simp)]
  rfl

/-- C10: when the INSERT persisting the pending ledger row throws during a
StartTopup that otherwise succeeds (valid amount, gateway success with a
truthy QR artifact and hash, owner with no registered interval), the top-up
still proceeds — the QR photo is delivered, the checker is stored, a live
poll interval and an expiry timer are scheduled — while the ledger gains no
row; and a later fault-free settle for that hash, finding no row to update,
inserts a completed entry directly, leaving exactly one completed ledger
entry for the hash. -/
theorem C10_lost_pending_write_settles
    (s : EngineState) (chatId : Nat) (a : ℚ) (env : TopupEnv)
    (qr : QRSuccess) (now' : Nat)
    (hval : specValidAmount env.settings (.fin a))
    (hqr : generateQRCode env.qrEnv = .success qr)
    (hurl : truthyS qr.qrUrl = true)
    (hmd5 : ¬ qr.md5Hash = "")
    (htx : env.txCreateFails = true)
    (hactive : mapGet s.activeIntervals chatId = none)
    (hm : qr.md5Hash ∉ s.processedMd5)
    (hnorow : ∀ r ∈ s.transactions, ¬ r.md5_hash = some qr.md5Hash) :
    (generateQR s chatId (.fin a) env).2 = .started qr.md5Hash ∧
    (generateQR s chatId (.fin a) env).1.transactions = s.transactions ∧
    (generateQR s chatId (.fin a) env).1.sentPhotos =
      s.sentPhotos ++ [(chatId, env.photoMessageId)] ∧
    mapGet (generateQR s chatId (.fin a) env).1.paymentCheckers chatId =
      some { md5 := qr.md5Hash, tran_id := qr.transactionId,
             message_id := env.photoMessageId, timestamp := env.now,
             amount := a, completed := false } ∧
    (generateQR s chatId (.fin a) env).1.intervals =
      s.intervals ++ [{ userId := chatId, md5 := qr.md5Hash, amount := a,
                        checkCount := 0, cleared := false }] ∧
    (generateQR s chatId (.fin a) env).1.timers =
      s.timers ++ [{ userId := chatId, fireAt := env.now + 600000,
                     fired := false }] ∧
    ((settle (generateQR s chatId (.fin a) env).1 chatId qr.md5Hash a
        (.ok now')).1.transactions.filter
      (fun r => r.md5_hash = some qr.md5Hash ∧
        r.status = "completed")).length = 1 := by
  obtain ⟨h1, h2, h3, h4, h5⟩ := specValid_checks env.settings (.fin a) hval
  have hsame : (generateQR s chatId (.fin a) env).1.transactions =
      s.transactions ∧
      (generateQR s chatId (.fin a) env).1.processedMd5 = s.processedMd5 := by
    constructor <;>
      simp [generateQR, h1, h2, h3, h4, h5, hqr, hurl, hmd5, htx,
        clearUser_noActive, hactive]
  refine ⟨?_, hsame.1, ?_, ?_, ?_, ?_, ?_⟩
  · simp [generateQR, h1, h2, h3, h4, h5, hqr, hurl, hmd5, htx,
      clearUser_noActive, hactive]
  · simp [generateQR, h1, h2, h3, h4, h5, hqr, hurl, hmd5, htx,
      clearUser_noActive, hactive]
  · simp [generateQR, h1, h2, h3, h4, h5, hqr, hurl, hmd5, htx,
      clearUser_noActive, hactive, mapGet_mapSet_self, JSNum.toRat]
  · simp [generateQR, h1, h2, h3, h4, h5, hqr, hurl, hmd5, htx,
      clearUser_noActive, hactive, JSNum.toRat]
  · simp [generateQR, h1, h2, h3, h4, h5, hqr, hurl, hmd5, htx,
      clearUser_noActive, hactive]
  · have hm' : qr.md5Hash ∉ (generateQR s chatId (.fin a) env).1.processedMd5 := by
      rw [hsame.2]; exact hm
    obtain ⟨-, htx', -, -⟩ := settle_core (generateQR s chatId (.fin a) env).1
      chatId qr.md5Hash a (.ok now') hm' rfl rfl
    rw [if_neg (by simp [SettleEnv.ok])] at htx'
    rw [htx', hsame.1]
    apply markCompletedRun_count
    · have : s.transactions.filter
          (fun r => r.md5_hash = some qr.md5Hash) = [] := by
        rw [List.filter_eq_nil_iff]
        intro r hr
        simpa using hnorow r hr
      rw [this]
      simp
    · intro r hr hcon
      exact absurd hcon (hnorow r hr)

/-- Updating an interval with the identity changes nothing. -/
lemma updateItv_id (l : List Interval) (idx : Nat) :
    updateItv l idx (fun x => x) = l := by
  induction l generalizing idx with
  | nil => rfl
  | cons a t ih =>
    cases idx with
    | zero => rfl
    | succ n => simp [updateItv, ih]

/-- Two consecutive updates at the same index compose. -/
lemma updateItv_comp (l : List Interval) (idx : Nat)
    (f g : Interval → Interval) :
    updateItv (updateItv l idx f) idx g =
      updateItv l idx (fun x => g (f x)) := by
  induction l generalizing idx with
  | nil => rfl
  | cons a t ih =>
    cases idx with
    | zero => rfl
    | succ n => simp [updateItv, ih]

/-- Updates agreeing on the element at the index agree as updates. -/
lemma updateItv_congr_at (l : List Interval) (idx : Nat) (x : Interval)
    (f g : Interval → Interval) (hget : l.get? idx = some x)
    (hfg : f x = g x) :
    updateItv l idx f = updateItv l idx g := by
  induction l generalizing idx with
  | nil => rfl
  | cons a t ih =>
    cases idx with
    | zero =>
      simp only [List.get?] at hget
      cases hget
      simp [updateItv, hfg]
    | succ n =>
      simp only [List.get?] at hget
      simp [updateItv, ih n hget]

/-- Pointwise equal updates agree. -/
lemma updateItv_congr_fun (l : List Interval) (idx : Nat)
    (f g : Interval → Interval) (hfg : ∀ x, f x = g x) :
    updateItv l idx f = updateItv l idx g := by
  induction l generalizing idx with
  | nil => rfl
  | cons a t ih =>
    cases idx with
    | zero => simp [updateItv, hfg]
    | succ n => simp [updateItv, ih]

/-- Running `k` consecutive not-paid poll ticks below the tick bound only
advances the interval's counter by `k`: the rest of the engine state is
untouched. -/
lemma runNotPaid (e : TickEnv) (idx : Nat)
    (hnp : ((checkPaymentStatus e.check).success &&
      (checkPaymentStatus e.check).paid) = false) :
    ∀ (k : Nat) (s : EngineState) (itv : Interval),
      s.intervals.get? idx = some itv →
      itv.cleared = false →
      (mapGet s.paymentCheckers itv.userId).isSome = true →
      itv.md5 ∉ s.processedMd5 →
      itv.checkCount + k < maxChecks →
      run s (List.replicate k (.tickEv idx e)) =
        { s with
          intervals := updateItv s.intervals idx
            (fun it => { it with checkCount := it.checkCount + k }) } := by
  intro k
  induction k with
  | zero =>
    intro s itv hget hcl hch hpm hk
    have h0 : updateItv s.intervals idx
        (fun it => { it with checkCount := it.checkCount + 0 }) =
        s.intervals := updateItv_id s.intervals idx
    rw [List.replicate_zero, run_nil, h0]
  | succ k ih =>
    intro s itv hget hcl hch hpm hk
    rw [List.replicate_succ, run_cons]
    have h1 : itv.checkCount + 1 < maxChecks := by
      unfold maxChecks at hk ⊢; omega
    have hstep := tick_notPaid s idx itv e hget hcl hch hpm hnp h1
    have hconv : updateItv s.intervals idx
        (fun it => { it with checkCount := itv.checkCount + 1 }) =
        updateItv s.intervals idx
          (fun it => { it with checkCount := it.checkCount + 1 }) :=
      updateItv_congr_at s.intervals idx itv _ _ hget rfl
    have hstep' : step s (.tickEv idx e) =
        { s with
          intervals := updateItv s.intervals idx
            (fun it => { it with checkCount := it.checkCount + 1 }) } := by
      show tick s idx e = _
      rw [hstep, hconv]
    rw [hstep']
    have hget' : ({ s with
        intervals := updateItv s.intervals idx
          (fun it => { it with checkCount := it.checkCount + 1 })
        : EngineState }).intervals.get? idx =
        some { itv with checkCount := itv.checkCount + 1 } :=
      updateItv_get_self s.intervals idx itv _ hget
    have ihx := ih { s with
        intervals := updateItv s.intervals idx
          (fun it => { it with checkCount := it.checkCount + 1 }) }
      { itv with checkCount := itv.checkCount + 1 }
      hget' hcl hch hpm (by simp only [maxChecks] at hk ⊢; omega)
    rw [ihx]
    have hcomp : updateItv (updateItv s.intervals idx
        (fun it => { it with checkCount := it.checkCount + 1 })) idx
        (fun it => { it with checkCount := it.checkCount + k }) =
        updateItv s.intervals idx
          (fun it => { it with checkCount := it.checkCount + (k + 1) }) := by
      rw [updateItv_comp]
      apply updateItv_congr_fun
      intro x
      have harith : x.checkCount + 1 + k = x.checkCount + (k + 1) := by omega
      simp [harith]
    simp only [hcomp]

/-- A settle-free event never changes a balance. -/
lemma step_settleFree_balances (s : EngineState) (ev : Event)
    (h : ev.settleFree = true) : (step s ev).balances = s.balances := by
  cases ev with
  | tickEv idx e =>
    have hnp : ((checkPaymentStatus e.check).success &&
        (checkPaymentStatus e.check).paid) = false := by
      simp only [Event.settleFree] at h
      cases hb : ((checkPaymentStatus e.check).success &&
          (checkPaymentStatus e.check).paid) with
      | false => rfl
      | true => rw [hb] at h; simp at h
    show (tick s idx e).balances = s.balances
    unfold tick
    split
    · rfl
    · split
      · rfl
      · simp only [hnp, Bool.false_eq_true, if_false]
        split
        · rfl
        · split
          · rfl
          · split
            · split <;> rfl
            · rfl
  | timerEv idx f =>
    show (timerFire s idx f).balances = s.balances
    unfold timerFire
    split
    · rfl
    · split
      · rfl
      · dsimp only
        split
        · rfl
        · split <;> rfl
  | cleanupEv now => rfl

/-- No sequence of settle-free events changes a balance. -/
lemma run_settleFree_balances (es : List Event) :
    ∀ s : EngineState, (∀ ev ∈ es, ev.settleFree = true) →
    (run s es).balances = s.balances := by
  induction es with
  | nil => intro s _; rfl
  | cons ev rest ih =>
    intro s h
    rw [run_cons, ih (step s ev) (fun x hx => h x (List.mem_cons_of_mem _ hx))]
    exact step_settleFree_balances s ev (h ev (List.mem_cons_self _ _))

/-- Concrete discharge of C10: the demo StartTopup with a failing pending
INSERT still schedules the poll loop, and the later settle leaves one
completed "H1" entry. -/
theorem C10_lost_pending_write_settles_witness :
    (generateQR EngineState.init 42 (.fin 10) c10Env).1.transactions = [] ∧
    ((settle (generateQR EngineState.init 42 (.fin 10) c10Env).1 42 "H1" 10
        (.ok 9)).1.transactions.filter
      (fun r => r.md5_hash = some "H1" ∧ r.status = "completed")).length = 1 := by
  have h := C10_lost_pending_write_settles EngineState.init 42 10 c10Env
    { qrUrl := some "http://img", qrBase64 := some "data:b64", qrRaw := none,
      md5Hash := "H1", transactionId := "T1" } 9
    ⟨10, rfl, by norm_num, by decide, by decide⟩
    (by decide) (by decide) (by decide) (by decide) (by decide)
    (by decide) (by intro r hr; simp [EngineState.init] at hr)
  exact ⟨h.2.1, h.2.2.2.2.2.2⟩

set_option maxRecDepth 8000 in
set_option maxHeartbeats 2000000 in
/-- C5 counterexample: in scenario B (owner 7, $5, hash "H2", 600 not-paid
poll ticks) there is an interleaving — the cleanup service's first run past
the 10-minute mark precedes the delayed expiry timer — in which the ledger
entry does become `expired` and the balance stays unchanged, but the QR
artifact is never deleted and the owner is never notified of expiry: the
cleanup run discards the PaymentRequest first, so the timer finds nothing
and does nothing. -/
theorem C5_counterexample :
    c5Final.transactions.map TxRow.status = ["expired"] ∧
    c5Final.balances 7 = 0 ∧
    c5Final.deletedMessages = [] ∧
    c5Final.sentMessages = [] ∧
    mapGet c5Final.paymentCheckers 7 = none := by
  have h599 := runNotPaid c5NotPaidTick 0 (by decide) 599 c5Start
    { userId := 7, md5 := "H2", amount := 5, checkCount := 0,
      cleared := false }
    (by decide) rfl (by decide) (by decide) (by decide)
  have hkey : c5Final =
      run (tick (run c5Start
          (List.replicate 599 (.tickEv 0 c5NotPaidTick))) 0 c5NotPaidTick)
        [.cleanupEv 601601, .timerEv 0 false] := by
    show run c5Start
        (List.replicate 600 (.tickEv 0 c5NotPaidTick) ++
          [.cleanupEv 601601, .timerEv 0 false]) = _
    rw [run_append, List.replicate_succ', run_append]
    rfl
  rw [hkey, h599]
  decide

set_option maxRecDepth 8000 in
set_option maxHeartbeats 2000000 in
/-- C5 amended: with 600 not-paid poll ticks, the ledger entry for the hash
becomes `expired` (the poll loop's 600th tick performs the pending-guarded
UPDATE) and the owner's balance is unchanged under every sequence of
settle-free events; but the QR deletion, the PaymentRequest discard and the
expiry notice are performed by the 10-minute timer only when the
PaymentRequest is still registered at firing time: in the timer-first
interleaving the artifact is deleted and the owner notified, while in the
cleanup-first interleaving the request is silently discarded and neither
happens. -/
theorem C5_amended_expiry_paths :
    (∀ (s : EngineState) (es : List Event),
      (∀ ev ∈ es, ev.settleFree = true) →
      (run s es).balances = s.balances) ∧
    (c5FinalTimerFirst.transactions.map TxRow.status = ["expired"] ∧
     c5FinalTimerFirst.deletedMessages = [(7, 99)] ∧
     c5FinalTimerFirst.sentMessages = [{ chatId := 7, text := expiredText }] ∧
     mapGet c5FinalTimerFirst.paymentCheckers 7 = none) ∧
    (c5Final.transactions.map TxRow.status = ["expired"] ∧
     c5Final.deletedMessages = [] ∧
     c5Final.sentMessages = []) := by
  have h599 := runNotPaid c5NotPaidTick 0 (by decide) 599 c5Start
    { userId := 7, md5 := "H2", amount := 5, checkCount := 0,
      cleared := false }
    (by decide) rfl (by decide) (by decide) (by decide)
  refine ⟨fun s es h => run_settleFree_balances es s h, ?_, ?_⟩
  · have hkey : c5FinalTimerFirst =
        run (tick (run c5Start
            (List.replicate 599 (.tickEv 0 c5NotPaidTick))) 0 c5NotPaidTick)
          [.timerEv 0 false, .cleanupEv 601601] := by
      show run c5Start
          (List.replicate 600 (.tickEv 0 c5NotPaidTick) ++
            [.timerEv 0 false, .cleanupEv 601601]) = _
      rw [run_append, List.replicate_succ', run_append]
      rfl
    rw [hkey, h599]
    decide
  · have hkey : c5Final =
        run (tick (run c5Start
            (List.replicate 599 (.tickEv 0 c5NotPaidTick))) 0 c5NotPaidTick)
          [.cleanupEv 601601, .timerEv 0 false] := by
      show run c5Start
          (List.replicate 600 (.tickEv 0 c5NotPaidTick) ++
            [.cleanupEv 601601, .timerEv 0 false]) = _
      rw [run_append, List.replicate_succ', run_append]
      rfl
    rw [hkey, h599]
    decide

set_option maxRecDepth 8000 in
set_option maxHeartbeats 2000000 in
/-- Concrete discharge of C5 amended: the whole cleanup-first trace is
settle-free, so owner 7's balance is unchanged across it. -/
theorem C5_amended_expiry_paths_witness :
    (run c5Start c5Trace).balances = c5Start.balances := by
  exact C5_amended_expiry_paths.1 c5Start c5Trace (by decide)

end KHQR
